import Mathlib

/-!
# Stream.go (package myspdy): the per-stream pipeline and its message queue

A shallow embedding of `Stream.go`.  Go values become Lean data, every method
becomes a function from the state before the call to the state after it and
the value returned.

* A pointer that may be nil (`*[]byte`, `*http.Header`, an `error`, an
  `interface{}`) is an `Option`; `none` is nil.
* `uint32` is a `Nat` with an explicit `% 2 ^ 32` where the code adds.
* `writer.stream` and `reader.stream` point back to the owning `Stream`, so a
  method of the writer or the reader that follows that pointer takes the
  `Stream` it belongs to.
* A call either returns, panics, or suspends on a channel receive; `Result`
  records which.
* `debug(...)` only logs and is left out.
* `newStreamHeap` is `newStream` with its pointers kept as addresses, for what
  is said about the back pointers; `NewStreamHeap.view` relates the two.
* A sequence of calls on a writer is a list of `WriterCall`; the trace of a
  stream pairs each frame handed to the session with the answer of
  `WriteFrame`.
-/

namespace myspdy

/-! ## Values supplied by the libraries -/

/-- One byte of a `[]byte`. -/
abbrev Byte := Fin 256

/-- A `[]byte`. -/
abbrev Bytes := List Byte

/-- An `http.Header`: header names with their lists of values. -/
abbrev Header := List (String × List String)

/-- A Go `error` value that is not nil. `EOF` is `io.EOF`; `New text` is any
other error, such as the result of `errors.New(text)`. -/
inductive Error where
  | EOF
  | New (text : String)
deriving DecidableEq, Repr

/-- The identity of a channel made by `make(chan bool)`. -/
abbrev Chan := Nat

/-- The type `spdy.ControlFlags`, a `uint8`. -/
abbrev ControlFlags := Nat

/-- Modelled from the spec: the terminal (FIN) flag of the framing library,
`spdy.ControlFlagFin`; the library is not part of the sources, its value there
is `0x01`. -/
def ControlFlagFin : ControlFlags := 1

/-- The frames of the framing library that `Stream.go` builds, with the fields
it sets (`CFHeader.Flags` is written `Flags`); every other field of a frame
keeps its zero value. -/
inductive Frame where
  | SynStreamFrame (StreamId : Nat) (Flags : ControlFlags) (Headers : Header)
  | SynReplyFrame (StreamId : Nat) (Flags : ControlFlags) (Headers : Header)
  | HeadersFrame (StreamId : Nat) (Flags : ControlFlags) (Headers : Header)
  | DataFrame (StreamId : Nat) (Data : Bytes)
deriving DecidableEq, Repr

/-- The `StreamId` field of a frame. -/
def Frame.StreamId : Frame → Nat
  | .SynStreamFrame id _ _ => id
  | .SynReplyFrame id _ _ => id
  | .HeadersFrame id _ _ => id
  | .DataFrame id _ => id

/-- Whether the frame is a control frame (SYN_STREAM, SYN_REPLY, HEADERS). -/
def Frame.isControl : Frame → Bool
  | .DataFrame _ _ => false
  | _ => true

/-- The control flags of a control frame; a data frame has none here. -/
def Frame.Flags : Frame → Option ControlFlags
  | .SynStreamFrame _ fl _ => some fl
  | .SynReplyFrame _ fl _ => some fl
  | .HeadersFrame _ fl _ => some fl
  | .DataFrame _ _ => none

/-- How a call ends: it returns a value, it panics, or its goroutine is
suspended at a receive `<-c` on the channel `c`. -/
inductive Result (α : Type) where
  | ret (a : α)
  | panic
  | blocked (c : Chan)
deriving DecidableEq, Repr

/-! ## The session (external) -/

/-- Modelled from the spec: the `Session` type, declared outside `Stream.go`;
it "supplies `WriteFrame(frame) error`".  `written` is the list of frames
handed to `WriteFrame` so far, oldest first; `reply` is what `WriteFrame`
answers for a frame, given the frames handed over before it (`none` is a nil
error), so that every behaviour of the transport is some `reply`. -/
structure Session where
  written : List Frame
  reply : List Frame → Frame → Option Error

/-- Modelled from the spec: `Session.WriteFrame(frame) error`, which
"transmits one already-constructed control or data frame". -/
def Session.WriteFrame (session : Session) (frame : Frame) : Session × Option Error :=
  ({ session with written := session.written ++ [frame] },
   session.reply session.written frame)

/-- The identity of an application handler (`Handler`, declared outside
`Stream.go`). -/
abbrev Handler := Nat

/-! ## A buffered message queue -/

/-- The `streamMessage` of `Stream.go`. -/
structure streamMessage where
  data : Option Bytes
  headers : Option Header
deriving DecidableEq, Repr

/-- An `interface{}` stored in a queue: nil, or a `*streamMessage`. -/
abbrev Interface := Option streamMessage

/-- The `MQ` of `Stream.go`. -/
structure MQ where
  messages : List Interface
  sync : Option Chan
deriving DecidableEq, Repr

/-- The function `NewMQ()`. -/
def NewMQ : MQ := { messages := [], sync := none }

/-- The method `mq.wait()`, up to the receive `<-mq.sync`: it returns its error at once,
or it registers the channel `c` that `make(chan bool)` returns and suspends
there.  What follows the receive is `MQ.wake`. -/
def MQ.wait (mq : MQ) (c : Chan) : MQ × Result Error :=
  if mq.sync ≠ none then
    (mq, .ret (.New "MQ can only be watched by one goroutine at a time"))
  else
    ({ mq with sync := some c }, .blocked c)

/-- The rest of `mq.wait()` once the receive `<-mq.sync` has completed:
`mq.sync = nil`, and `wait` returns nil. -/
def MQ.wake (mq : MQ) : MQ := { mq with sync := none }

/-- The method `mq.Receive()`, up to the first point where it returns or suspends; `c` is
the channel that `wait` would make.  A suspended call goes on, when woken, as
`Receive` does from the state `mq.wake`. -/
def MQ.Receive (mq : MQ) (c : Chan) : MQ × Result (Interface × Option Error) :=
  match mq.messages with
  | [] =>
    match mq.wait c with
    | (mq1, .ret err) => (mq1, .ret (none, some err))
    | (mq1, .panic) => (mq1, .panic)
    | (mq1, .blocked d) => (mq1, .blocked d)
  | msg :: rest => ({ mq with messages := rest }, .ret (msg, none))

/-- The method `mq.Send(msg)`: the message is appended; the second component is the
channel on which `true` is then sent to unblock the waiter, if there is one. -/
def MQ.Send (mq : MQ) (msg : Interface) : MQ × Option Chan :=
  let mq1 := { mq with messages := mq.messages ++ [msg] }
  (mq1, mq1.sync)

/-! ## Stream, StreamReader, StreamWriter -/

/-- The `StreamReader` of `Stream.go` (its `stream` back pointer apart). -/
structure StreamReader where
  headers : Header
  data : MQ
deriving DecidableEq, Repr

/-- The `StreamWriter` of `Stream.go` (its `stream` back pointer apart). -/
structure StreamWriter where
  headers : Header
  nFramesSent : Nat
deriving DecidableEq, Repr

/-- The `Stream` of `Stream.go`, with the session its pointer refers to. -/
structure Stream where
  session : Session
  Id : Nat
  Input : StreamReader
  Output : StreamWriter
  handler : Handler
  IsMine : Bool

/-- The function `newStream(session, id, handler, IsMine)`. -/
def newStream (session : Session) (id : Nat) (handler : Handler) (IsMine : Bool) : Stream :=
  { session := session
    Id := id
    Input := { headers := [], data := NewMQ }
    Output := { headers := [], nFramesSent := 0 }
    handler := handler
    IsMine := IsMine }

/-- The method `reader.Headers()`. -/
def StreamReader.Headers (reader : StreamReader) : Header := reader.headers

/-- The method `reader.Receive()`: the type assertion `msg.(*streamMessage)` panics on a
nil `msg`. -/
def StreamReader.Receive (reader : StreamReader) (c : Chan) :
    StreamReader × Result (Option Bytes × Option Header × Option Error) :=
  match reader.data.Receive c with
  | (mq1, .ret (some msg, err)) => ({ reader with data := mq1 }, .ret (msg.data, msg.headers, err))
  | (mq1, .ret (none, _)) => ({ reader with data := mq1 }, .panic)
  | (mq1, .panic) => ({ reader with data := mq1 }, .panic)
  | (mq1, .blocked d) => ({ reader with data := mq1 }, .blocked d)

/-- The method `reader.Push(data, headers)`; the second component is the channel that
`MQ.Send` signals, if any. -/
def StreamReader.Push (reader : StreamReader) (data : Option Bytes) (headers : Option Header) :
    StreamReader × Option Chan :=
  let (mq1, signal) := reader.data.Send (some { data := data, headers := headers })
  ({ reader with data := mq1 }, signal)

/-- The method `writer.Headers()`. -/
def StreamWriter.Headers (writer : StreamWriter) : Header := writer.headers

/-- The method `writer.writeFrame(frame)`, for the writer of `stream`. -/
def StreamWriter.writeFrame (stream : Stream) (frame : Frame) : Stream × Option Error :=
  let (session1, err) := stream.session.WriteFrame frame
  let stream1 := { stream with session := session1 }
  if err ≠ none then
    (stream1, err)
  else
    ({ stream1 with
        Output := { stream1.Output with nFramesSent := (stream1.Output.nFramesSent + 1) % 2 ^ 32 } },
     none)

/-- The method `writer.SendHeaders(final)`, for the writer of `stream`. -/
def StreamWriter.SendHeaders (stream : Stream) (final : Bool) : Stream × Option Error :=
  let flags : ControlFlags := if final then 0 ||| ControlFlagFin else 0
  if stream.Output.nFramesSent = 0 then
    if stream.IsMine then
      let (stream1, err) :=
        StreamWriter.writeFrame stream (.SynStreamFrame stream.Id flags stream.Output.headers)
      if err ≠ none then (stream1, err) else (stream1, none)
    else
      let (stream1, err) :=
        StreamWriter.writeFrame stream (.SynReplyFrame stream.Id flags stream.Output.headers)
      if err ≠ none then (stream1, err) else (stream1, none)
  else
    let (stream1, err) :=
      StreamWriter.writeFrame stream (.HeadersFrame stream.Id flags stream.Output.headers)
    if err ≠ none then (stream1, err) else (stream1, none)

/-- The method `writer.Send(data)`, for the writer of `stream`: the result of the implicit
`SendHeaders(false)` is dropped, `*data` panics on a nil pointer, and the data
frame goes to the session directly, not through `writeFrame`. -/
def StreamWriter.Send (stream : Stream) (data : Option Bytes) : Stream × Result (Option Error) :=
  let stream1 :=
    if stream.Output.nFramesSent = 0 then (StreamWriter.SendHeaders stream false).1 else stream
  match data with
  | none => (stream1, .panic)
  | some bytes =>
    let (session2, err) := stream1.session.WriteFrame (.DataFrame stream1.Id bytes)
    ({ stream1 with session := session2 }, .ret err)

/-- What one call of `bufio.Reader.ReadLine` returns: the line and the error
(the `isPrefix` flag, which `SendLines` discards, is left out). -/
structure ReadLineResult where
  line : Bytes
  err : Option Error
deriving DecidableEq, Repr

/-- The method `writer.SendLines(lines)`, for the writer of `stream`.  The `bufio.Reader`
is the list of the results that its coming `ReadLine` calls return; once those
are used up `ReadLine` returns `io.EOF`. -/
def StreamWriter.SendLines (stream : Stream) : List ReadLineResult → Stream × Result (Option Error)
  | [] => (stream, .ret none)
  | r :: lines =>
    let line := r.line
    let err := r.err
    if err = some .EOF then
      (stream, .ret none)
    else if err ≠ none then
      (stream, .ret err)
    else
      match StreamWriter.Send stream (some line) with
      | (stream1, .ret none) => StreamWriter.SendLines stream1 lines
      | (stream1, .ret (some _)) => (stream1, .ret err)
      | (stream1, .panic) => (stream1, .panic)
      | (stream1, .blocked c) => (stream1, .blocked c)

/-! ## Sequences of calls -/

/-- The calls `Push(m1), ..., Push(mn)` made in turn on a reader; the list is
what each call signalled. -/
def StreamReader.pushEach (reader : StreamReader) :
    List (Option Bytes × Option Header) → StreamReader × List (Option Chan)
  | [] => (reader, [])
  | m :: ms =>
    let (reader1, signal) := reader.Push m.1 m.2
    let (reader2, signals) := StreamReader.pushEach reader1 ms
    (reader2, signal :: signals)

/-- One call of `Receive` after another on a reader, one for each channel of
the list; the results are listed in the order of the calls. -/
def StreamReader.receiveEach (reader : StreamReader) :
    List Chan → StreamReader × List (Result (Option Bytes × Option Header × Option Error))
  | [] => (reader, [])
  | c :: cs =>
    let (reader1, res) := reader.Receive c
    let (reader2, rs) := StreamReader.receiveEach reader1 cs
    (reader2, res :: rs)

/-- The calls `Send(&l1), ..., Send(&ln)` made in turn on the writer of
`stream`, whatever each returns. -/
def StreamWriter.sendEach (stream : Stream) : List Bytes → Stream
  | [] => stream
  | l :: ls => StreamWriter.sendEach (StreamWriter.Send stream (some l)).1 ls

/-- A session whose `WriteFrame` always succeeds. -/
def Session.succeeds (session : Session) : Prop :=
  ∀ (before : List Frame) (frame : Frame), session.reply before frame = none

/-- The frames handed to the session between the state `stream` and the later
state `stream1`. -/
def submitted (stream stream1 : Stream) : List Frame :=
  stream1.session.written.drop stream.session.written.length

/-! ## The objects that newStream allocates -/

/-- The address of an object on the heap. -/
abbrev Addr := Nat

/-- The `Stream` struct as it lies on the heap: `session`, `Input` and
`Output` are pointers, `none` being nil. -/
structure StreamObject where
  session : Addr
  Id : Nat
  Input : Option Addr
  Output : Option Addr
  handler : Handler
  IsMine : Bool
deriving DecidableEq, Repr

/-- The `StreamReader` struct as it lies on the heap. -/
structure StreamReaderObject where
  stream : Option Addr
  headers : Header
  data : Option Addr
deriving DecidableEq, Repr

/-- The `StreamWriter` struct as it lies on the heap. -/
structure StreamWriterObject where
  stream : Option Addr
  headers : Header
  nFramesSent : Nat
deriving DecidableEq, Repr

/-- What a call of `newStream` leaves on the heap: the pointer it returns and
the four objects it allocates, each with its address. -/
structure NewStreamHeap where
  returned : Addr
  streamAt : Addr
  stream : StreamObject
  readerAt : Addr
  reader : StreamReaderObject
  writerAt : Addr
  writer : StreamWriterObject
  queueAt : Addr
  queue : MQ
deriving DecidableEq, Repr

/-- The function `newStream(session, id, handler, IsMine)` with its pointers
kept: `session` is the session pointer, and `streamAt`, `readerAt`, `writerAt`
and `queueAt` are the addresses at which the `Stream`, the `StreamReader`, the
`StreamWriter` and the `MQ` are allocated. -/
def newStreamHeap (session : Addr) (id : Nat) (handler : Handler) (IsMine : Bool)
    (streamAt readerAt writerAt queueAt : Addr) : NewStreamHeap :=
  let stream0 : StreamObject :=
    { session := session, Id := id, Input := none, Output := none, handler := handler,
      IsMine := IsMine }
  let reader : StreamReaderObject :=
    { stream := some streamAt, headers := [], data := some queueAt }
  let stream1 : StreamObject := { stream0 with Input := some readerAt }
  let writer : StreamWriterObject :=
    { stream := some streamAt, headers := [], nFramesSent := 0 }
  let stream2 : StreamObject := { stream1 with Output := some writerAt }
  { returned := streamAt
    streamAt := streamAt
    stream := stream2
    readerAt := readerAt
    reader := reader
    writerAt := writerAt
    writer := writer
    queueAt := queueAt
    queue := NewMQ }

/-- The `Stream` value that the heap of `newStream` holds once its pointers
are followed, for a session pointer that refers to `session`. -/
def NewStreamHeap.view (heap : NewStreamHeap) (session : Session) : Stream :=
  { session := session
    Id := heap.stream.Id
    Input := { headers := heap.reader.headers, data := heap.queue }
    Output := { headers := heap.writer.headers, nFramesSent := heap.writer.nFramesSent }
    handler := heap.stream.handler
    IsMine := heap.stream.IsMine }

/-! ## Calls on a stream, and what the session answered -/

/-- The method `stream.Run()`: the `go` statement starts the handler in a new
goroutine and `Run` returns at once; the second component is the handler that
was started. -/
def Stream.Run (stream : Stream) : Stream × Handler := (stream, stream.handler)

/-- A call that the application makes on the writer of a stream.  `Headers`
stands for `writer.Headers()` followed by a write, through the pointer
returned, that leaves the header set `headers`. -/
inductive WriterCall where
  | Send (data : Option Bytes)
  | SendHeaders (final : Bool)
  | SendLines (lines : List ReadLineResult)
  | Headers (headers : Header)
deriving DecidableEq, Repr

/-- The stream after one call on its writer. -/
def StreamWriter.call (stream : Stream) : WriterCall → Stream
  | .Send data => (StreamWriter.Send stream data).1
  | .SendHeaders final => (StreamWriter.SendHeaders stream final).1
  | .SendLines lines => (StreamWriter.SendLines stream lines).1
  | .Headers headers => { stream with Output := { stream.Output with headers := headers } }

/-- The stream after a sequence of calls on its writer. -/
def StreamWriter.calls (stream : Stream) : List WriterCall → Stream
  | [] => stream
  | call :: rest => StreamWriter.calls (StreamWriter.call stream call) rest

/-- A core operation on a stream: a method of its reader (`wake` is a
suspended `Receive` going on after its signal), a call on its writer, the
writer's `writeFrame`, or `Run`. -/
inductive Call where
  | Push (data : Option Bytes) (headers : Option Header)
  | Receive (c : Chan)
  | wake
  | ReaderHeaders (headers : Header)
  | writer (call : WriterCall)
  | writeFrame (frame : Frame)
  | Run
deriving DecidableEq, Repr

/-- The stream after one core operation. -/
def Stream.call (stream : Stream) : Call → Stream
  | .Push data headers => { stream with Input := (stream.Input.Push data headers).1 }
  | .Receive c => { stream with Input := (stream.Input.Receive c).1 }
  | .wake => { stream with Input := { stream.Input with data := stream.Input.data.wake } }
  | .ReaderHeaders headers => { stream with Input := { stream.Input with headers := headers } }
  | .writer call => StreamWriter.call stream call
  | .writeFrame frame => (StreamWriter.writeFrame stream frame).1
  | .Run => stream.Run.1

/-- The stream after a sequence of core operations. -/
def Stream.calls (stream : Stream) : List Call → Stream
  | [] => stream
  | call :: rest => Stream.calls (Stream.call stream call) rest

/-- The frames `frames`, handed one by one to a session that had been handed
`before`, each with what `WriteFrame` answered for it. -/
def answers (reply : List Frame → Frame → Option Error) (before : List Frame) :
    List Frame → List (Frame × Option Error)
  | [] => []
  | frame :: frames => (frame, reply before frame) :: answers reply (before ++ [frame]) frames

/-- The trace of a stream between the state `stream` and the later state
`stream1`: the frames handed to the session, each with the answer of
`WriteFrame`. -/
def trace (stream stream1 : Stream) : List (Frame × Option Error) :=
  answers stream1.session.reply stream.session.written (submitted stream stream1)

/-- Whether an entry of a trace is a control frame that was written
successfully. -/
def controlWritten (entry : Frame × Option Error) : Bool :=
  entry.1.isControl && entry.2.isNone

/-- The number of control frames of a trace that were written successfully. -/
def countControlWritten (tr : List (Frame × Option Error)) : Nat :=
  tr.countP controlWritten

/-- Whether the frame opens the stream: SYN_STREAM on a stream that is ours,
SYN_REPLY on one that is not. -/
def Frame.opens (IsMine : Bool) : Frame → Bool
  | .SynStreamFrame _ _ _ => IsMine
  | .SynReplyFrame _ _ _ => !IsMine
  | _ => false

/-- Whether the frame is a SYN_STREAM or a SYN_REPLY frame. -/
def Frame.isSyn : Frame → Bool
  | .SynStreamFrame _ _ _ => true
  | .SynReplyFrame _ _ _ => true
  | _ => false

/-- Whether the frame is a HEADERS frame. -/
def Frame.isHeaders : Frame → Bool
  | .HeadersFrame _ _ _ => true
  | _ => false

/-- Whether a frame fits the point of the trace at which it stands: a control
frame opens the stream as long as none was written successfully (`opened` is
false) and is a HEADERS frame afterwards. -/
def Frame.fits (IsMine opened : Bool) (frame : Frame) : Bool :=
  !frame.isControl || (if opened then frame.isHeaders else frame.opens IsMine)

/-- Whether every frame of a trace fits its place, `opened` telling whether a
control frame was written successfully before the trace starts. -/
def opensOnce (IsMine : Bool) : Bool → List (Frame × Option Error) → Bool
  | _, [] => true
  | opened, entry :: rest =>
    entry.1.fits IsMine opened && opensOnce IsMine (opened || controlWritten entry) rest

/-- The invariant of a writer whose session answers by `reply` and had been
handed `before` when the stream was made: the session was handed only more
frames since, `nFramesSent` is the number of control frames written
successfully since, modulo 2^32, and as long as that number is below 2^32 every
frame of the trace fits its place. -/
def Tracked (reply : List Frame → Frame → Option Error) (before : List Frame) (mine : Bool)
    (stream : Stream) : Prop :=
  stream.IsMine = mine ∧
  stream.session.reply = reply ∧
  ∃ frames : List Frame,
    stream.session.written = before ++ frames ∧
    stream.Output.nFramesSent = countControlWritten (answers reply before frames) % 2 ^ 32 ∧
    (countControlWritten (answers reply before frames) < 2 ^ 32 →
      opensOnce mine false (answers reply before frames) = true)

/-! ## Sessions and streams used as examples -/

/-- A session that has written nothing yet and whose `WriteFrame` always
succeeds. -/
def okSession : Session := { written := [], reply := fun _ _ => none }

/-- A session that has written nothing yet and whose `WriteFrame` always
fails. -/
def brokenSession : Session :=
  { written := [], reply := fun _ _ => some (.New "broken pipe") }

/-- A session whose first `WriteFrame` fails and whose later ones succeed. -/
def flakySession : Session :=
  { written := []
    reply := fun before _ =>
      match before with
      | [] => some (.New "broken pipe")
      | _ :: _ => none }

/-- A stream of the given session whose writer has already sent `n` frames. -/
def sentStream (session : Session) (IsMine : Bool) (n : Nat) : Stream :=
  { newStream session 1 0 IsMine with Output := { headers := [], nFramesSent := n } }

/-! ## C1: the reader is first in, first out -/

theorem MQ.Send_nosync (mq : MQ) (msg : Interface) (h : mq.sync = none) :
    mq.Send msg = ({ messages := mq.messages ++ [msg], sync := none }, none) := by
  cases mq with
  | mk messages sync =>
    simp only at h
    subst h
    rfl

theorem StreamReader.pushEach_nosync (ms : List (Option Bytes × Option Header)) :
    ∀ reader : StreamReader, reader.data.sync = none →
      reader.pushEach ms =
        ({ reader with
            data := { messages := reader.data.messages ++
                        ms.map (fun m => some { data := m.1, headers := m.2 }),
                      sync := none } },
         ms.map (fun _ => none)) := by
  induction ms with
  | nil =>
    intro reader h
    cases reader with
    | mk headers data =>
      cases data with
      | mk messages sync =>
        simp only at h
        subst h
        simp [StreamReader.pushEach]
  | cons m ms ih =>
    intro reader h
    simp only [StreamReader.pushEach, StreamReader.Push, MQ.Send_nosync _ _ h]
    rw [ih _ rfl]
    simp

theorem StreamReader.receiveEach_buffered (ms : List (Option Bytes × Option Header)) :
    ∀ (reader : StreamReader) (rest : List Interface) (cs : List Chan),
      cs.length = ms.length →
      reader.data.messages = ms.map (fun m => some { data := m.1, headers := m.2 }) ++ rest →
      reader.receiveEach cs =
        ({ reader with data := { reader.data with messages := rest } },
         ms.map (fun m => Result.ret (m.1, m.2, none))) := by
  induction ms with
  | nil =>
    intro reader rest cs hlen hbuf
    cases cs with
    | nil =>
      cases reader with
      | mk headers data =>
        cases data with
        | mk messages sync =>
          simp only [List.map_nil, List.nil_append] at hbuf
          subst hbuf
          simp [StreamReader.receiveEach]
    | cons c cs => simp at hlen
  | cons m ms ih =>
    intro reader rest cs hlen hbuf
    cases cs with
    | nil => simp at hlen
    | cons c cs =>
      simp only [List.length_cons, Nat.add_right_cancel_iff] at hlen
      simp only [List.map_cons, List.cons_append] at hbuf
      simp only [StreamReader.receiveEach, StreamReader.Receive, MQ.Receive, hbuf]
      rw [ih _ rest cs hlen rfl]
      simp

/-- C1: on a reader whose buffer is empty and on which no `Receive` is in
progress (no waiter is registered), after `Push` of m1, ..., mn in that order
the next n calls of `Receive` return m1, ..., mn in that order, each with its
own payload and headers and a nil error; no `Push` touches a channel, and
afterwards the buffer is empty again, the reader being as it was at first. -/
theorem StreamReader.Receive_fifo (reader : StreamReader)
    (ms : List (Option Bytes × Option Header)) (cs : List Chan)
    (hbuf : reader.data.messages = []) (hsync : reader.data.sync = none)
    (hlen : cs.length = ms.length) :
    (reader.pushEach ms).2 = ms.map (fun _ => none) ∧
    (reader.pushEach ms).1.receiveEach cs =
      (reader, ms.map (fun m => Result.ret (m.1, m.2, none))) ∧
    ((reader.pushEach ms).1.receiveEach cs).1.data.messages = [] := by
  have hpush := StreamReader.pushEach_nosync ms reader hsync
  have hrecv : (reader.pushEach ms).1.receiveEach cs =
      (reader, ms.map (fun m => Result.ret (m.1, m.2, none))) := by
    rw [hpush]
    rw [StreamReader.receiveEach_buffered ms _ [] cs hlen (by simp [hbuf])]
    cases reader with
    | mk headers data =>
      cases data with
      | mk messages sync =>
        simp only at hbuf hsync
        subst hbuf
        subst hsync
        rfl
  refine ⟨by rw [hpush], hrecv, ?_⟩
  rw [hrecv]
  exact hbuf

/-- C1 at three messages, the second with a nil payload and nil headers. -/
theorem StreamReader.Receive_fifo_witness :
    (NewMQ.messages = [] ∧ NewMQ.sync = none) ∧
    (({ headers := [], data := NewMQ } : StreamReader).pushEach
        [(some [1], some [("a", ["b"])]), (none, none), (some [2, 3], none)]).2
      = [none, none, none] ∧
    (({ headers := [], data := NewMQ } : StreamReader).pushEach
        [(some [1], some [("a", ["b"])]), (none, none), (some [2, 3], none)]).1.receiveEach [7, 8, 9]
      = ({ headers := [], data := NewMQ },
         [Result.ret (some [1], some [("a", ["b"])], none), Result.ret (none, none, none),
          Result.ret (some [2, 3], none, none)]) :=
  have h := StreamReader.Receive_fifo { headers := [], data := NewMQ }
    [(some [1], some [("a", ["b"])]), (none, none), (some [2, 3], none)] [7, 8, 9] rfl rfl rfl
  ⟨⟨rfl, rfl⟩, h.1, h.2.1⟩

/-! ## C2, C3, C4: SendHeaders -/

theorem StreamWriter.writeFrame_written (stream : Stream) (frame : Frame) :
    (StreamWriter.writeFrame stream frame).1.session.written = stream.session.written ++ [frame] ∧
    (StreamWriter.writeFrame stream frame).1.session.reply = stream.session.reply ∧
    (StreamWriter.writeFrame stream frame).2 = stream.session.reply stream.session.written frame := by
  unfold StreamWriter.writeFrame Session.WriteFrame
  cases h : stream.session.reply stream.session.written frame <;> simp

theorem StreamWriter.writeFrame_ok (stream : Stream) (frame : Frame)
    (h : stream.session.reply stream.session.written frame = none) :
    StreamWriter.writeFrame stream frame =
      ({ stream with
          session := { stream.session with written := stream.session.written ++ [frame] }
          Output := { stream.Output with
                        nFramesSent := (stream.Output.nFramesSent + 1) % 2 ^ 32 } },
       none) := by
  unfold StreamWriter.writeFrame Session.WriteFrame
  simp [h]

theorem StreamWriter.writeFrame_err (stream : Stream) (frame : Frame) (e : Error)
    (h : stream.session.reply stream.session.written frame = some e) :
    StreamWriter.writeFrame stream frame =
      ({ stream with
          session := { stream.session with written := stream.session.written ++ [frame] } },
       some e) := by
  unfold StreamWriter.writeFrame Session.WriteFrame
  simp [h]

/-- A call of `SendHeaders` is one `writeFrame`, of the frame it chooses. -/
theorem StreamWriter.SendHeaders_eq (stream : Stream) (final : Bool) :
    ∃ frame : Frame,
      StreamWriter.SendHeaders stream final = StreamWriter.writeFrame stream frame ∧
      frame.StreamId = stream.Id ∧
      frame.isControl = true ∧
      frame.Flags = some (if final then ControlFlagFin else 0) ∧
      (stream.Output.nFramesSent = 0 → stream.IsMine = true →
        frame = .SynStreamFrame stream.Id (if final then ControlFlagFin else 0)
                  stream.Output.headers) ∧
      (stream.Output.nFramesSent = 0 → stream.IsMine = false →
        frame = .SynReplyFrame stream.Id (if final then ControlFlagFin else 0)
                  stream.Output.headers) ∧
      (0 < stream.Output.nFramesSent →
        frame = .HeadersFrame stream.Id (if final then ControlFlagFin else 0)
                  stream.Output.headers) := by
  have hfl : (if final = true then (0 : ControlFlags) ||| ControlFlagFin else 0)
      = if final = true then ControlFlagFin else 0 := by
    cases final <;> simp
  have hret : ∀ p : Stream × Option Error,
      (if p.2 ≠ none then (p.1, p.2) else (p.1, none)) = p := by
    intro p
    rcases p with ⟨a, b⟩
    cases b <;> simp
  unfold StreamWriter.SendHeaders
  rw [hfl]
  by_cases hn : stream.Output.nFramesSent = 0
  · cases hm : stream.IsMine
    · refine ⟨.SynReplyFrame stream.Id (if final then ControlFlagFin else 0)
        stream.Output.headers, ?_, rfl, rfl, rfl, ?_, ?_, ?_⟩
      · simp only [hn, if_true, Bool.false_eq_true, if_false]
        exact hret _
      · intro _ h
        cases h
      · intro _ _
        rfl
      · intro h
        omega
    · refine ⟨.SynStreamFrame stream.Id (if final then ControlFlagFin else 0)
        stream.Output.headers, ?_, rfl, rfl, rfl, ?_, ?_, ?_⟩
      · simp only [hn, if_true]
        exact hret _
      · intro _ _
        rfl
      · intro _ h
        cases h
      · intro h
        omega
  · refine ⟨.HeadersFrame stream.Id (if final then ControlFlagFin else 0)
      stream.Output.headers, ?_, rfl, rfl, rfl, ?_, ?_, ?_⟩
    · simp only [hn, if_false]
      exact hret _
    · intro h
      exact absurd h hn
    · intro h
      exact absurd h hn
    · intro _
      rfl

/-- C2: `SendHeaders(final)` hands exactly one frame to the session.  With
`nFramesSent == 0` it is a SYN_STREAM frame when `IsMine` is true and a
SYN_REPLY frame when `IsMine` is false; with `nFramesSent > 0` it is a HEADERS
frame, whatever `IsMine` and `final` are.  In each case the frame carries the
stream's `Id`. -/
theorem StreamWriter.SendHeaders_frame_type (stream : Stream) (final : Bool) :
    (stream.Output.nFramesSent = 0 → stream.IsMine = true →
      ∃ flags headers,
        (StreamWriter.SendHeaders stream final).1.session.written =
          stream.session.written ++ [.SynStreamFrame stream.Id flags headers]) ∧
    (stream.Output.nFramesSent = 0 → stream.IsMine = false →
      ∃ flags headers,
        (StreamWriter.SendHeaders stream final).1.session.written =
          stream.session.written ++ [.SynReplyFrame stream.Id flags headers]) ∧
    (0 < stream.Output.nFramesSent →
      ∃ flags headers,
        (StreamWriter.SendHeaders stream final).1.session.written =
          stream.session.written ++ [.HeadersFrame stream.Id flags headers]) := by
  obtain ⟨frame, heq, _, _, _, h1, h2, h3⟩ := StreamWriter.SendHeaders_eq stream final
  rw [heq]
  refine ⟨?_, ?_, ?_⟩
  · intro hn hm
    exact ⟨_, _, by rw [← h1 hn hm]; exact (StreamWriter.writeFrame_written stream frame).1⟩
  · intro hn hm
    exact ⟨_, _, by rw [← h2 hn hm]; exact (StreamWriter.writeFrame_written stream frame).1⟩
  · intro hn
    exact ⟨_, _, by rw [← h3 hn]; exact (StreamWriter.writeFrame_written stream frame).1⟩

/-- C2 at a fresh local stream, a fresh remote stream and an opened stream. -/
theorem StreamWriter.SendHeaders_frame_type_witness :
    ((newStream okSession 1 0 true).Output.nFramesSent = 0 ∧
      ∃ flags headers,
        (StreamWriter.SendHeaders (newStream okSession 1 0 true) true).1.session.written =
          (newStream okSession 1 0 true).session.written ++
            [.SynStreamFrame (newStream okSession 1 0 true).Id flags headers]) ∧
    ((newStream okSession 1 0 false).Output.nFramesSent = 0 ∧
      ∃ flags headers,
        (StreamWriter.SendHeaders (newStream okSession 1 0 false) false).1.session.written =
          (newStream okSession 1 0 false).session.written ++
            [.SynReplyFrame (newStream okSession 1 0 false).Id flags headers]) ∧
    (0 < (sentStream okSession true 1).Output.nFramesSent ∧
      ∃ flags headers,
        (StreamWriter.SendHeaders (sentStream okSession true 1) true).1.session.written =
          (sentStream okSession true 1).session.written ++
            [.HeadersFrame (sentStream okSession true 1).Id flags headers]) :=
  ⟨⟨rfl, (StreamWriter.SendHeaders_frame_type (newStream okSession 1 0 true) true).1 rfl rfl⟩,
   ⟨rfl, (StreamWriter.SendHeaders_frame_type (newStream okSession 1 0 false) false).2.1 rfl rfl⟩,
   ⟨by decide,
    (StreamWriter.SendHeaders_frame_type (sentStream okSession true 1) true).2.2 (by decide)⟩⟩

/-- C3: whatever the state of the writer (any `nFramesSent`, any `IsMine`), the
one frame that `SendHeaders(final)` hands to the session is a control frame
whose flags are exactly the FIN flag when `final` is true and zero when `final`
is false; the FIN flag is not zero. -/
theorem StreamWriter.SendHeaders_fin_flag (stream : Stream) (final : Bool) :
    (∃ frame : Frame,
      (StreamWriter.SendHeaders stream final).1.session.written =
        stream.session.written ++ [frame] ∧
      frame.isControl = true ∧
      frame.Flags = some (if final then ControlFlagFin else 0)) ∧
    ControlFlagFin ≠ 0 := by
  obtain ⟨frame, heq, _, hc, hf, _⟩ := StreamWriter.SendHeaders_eq stream final
  refine ⟨⟨frame, ?_, hc, hf⟩, by decide⟩
  rw [heq]
  exact (StreamWriter.writeFrame_written stream frame).1

/-- C4 as stated fails: with `nFramesSent` at 4294967295 a `SendHeaders` whose
`WriteFrame` succeeds returns nil and leaves `nFramesSent` at 0, which is not
the old value plus one. -/
theorem StreamWriter.SendHeaders_counter_wraps :
    (sentStream okSession true 4294967295).Output.nFramesSent = 4294967295 ∧
    (StreamWriter.SendHeaders (sentStream okSession true 4294967295) false).2 = none ∧
    (StreamWriter.SendHeaders (sentStream okSession true 4294967295) false).1.Output.nFramesSent
      = 0 ∧
    (StreamWriter.SendHeaders (sentStream okSession true 4294967295) false).1.Output.nFramesSent
      ≠ (sentStream okSession true 4294967295).Output.nFramesSent + 1 := by
  decide

/-- C4, amended: `SendHeaders(final)` hands one frame to the session.  If the
session's `WriteFrame` succeeds on it, `SendHeaders` returns nil and
`nFramesSent` becomes the old value plus one modulo 2^32.  If `WriteFrame`
returns an error `e`, `SendHeaders` returns exactly `e`, `nFramesSent` is
unchanged, and a repeated call hands the same frame to the session again. -/
theorem StreamWriter.SendHeaders_result (stream : Stream) (final : Bool) :
    ∃ frame : Frame,
      (StreamWriter.SendHeaders stream final).1.session.written =
        stream.session.written ++ [frame] ∧
      (stream.session.reply stream.session.written frame = none →
        (StreamWriter.SendHeaders stream final).2 = none ∧
        (StreamWriter.SendHeaders stream final).1.Output.nFramesSent =
          (stream.Output.nFramesSent + 1) % 2 ^ 32) ∧
      (∀ e : Error, stream.session.reply stream.session.written frame = some e →
        (StreamWriter.SendHeaders stream final).2 = some e ∧
        (StreamWriter.SendHeaders stream final).1.Output.nFramesSent =
          stream.Output.nFramesSent ∧
        (StreamWriter.SendHeaders (StreamWriter.SendHeaders stream final).1 final).1.session.written
          = stream.session.written ++ [frame, frame]) := by
  obtain ⟨frame, heq, _, _, _, h1, h2, h3⟩ := StreamWriter.SendHeaders_eq stream final
  refine ⟨frame, ?_, ?_, ?_⟩
  · rw [heq]
    exact (StreamWriter.writeFrame_written stream frame).1
  · intro hok
    rw [heq, StreamWriter.writeFrame_ok stream frame hok]
    exact ⟨rfl, rfl⟩
  · intro e herr
    rw [heq, StreamWriter.writeFrame_err stream frame e herr]
    refine ⟨rfl, rfl, ?_⟩
    obtain ⟨frame2, heq2, _, _, _, k1, k2, k3⟩ := StreamWriter.SendHeaders_eq
      { stream with
          session := { stream.session with written := stream.session.written ++ [frame] } }
      final
    have hsame : frame2 = frame := by
      by_cases hn : stream.Output.nFramesSent = 0
      · cases hm : stream.IsMine
        · rw [k2 hn hm, h2 hn hm]
        · rw [k1 hn hm, h1 hn hm]
      · have hpos : 0 < stream.Output.nFramesSent := Nat.pos_of_ne_zero hn
        rw [k3 hpos, h3 hpos]
    rw [heq2, hsame]
    rw [(StreamWriter.writeFrame_written _ frame).1]
    simp

/-- C4, amended, at a stream whose session succeeds and at one whose session
fails. -/
theorem StreamWriter.SendHeaders_result_witness :
    ((StreamWriter.SendHeaders (newStream okSession 1 0 true) true).2 = none ∧
     (StreamWriter.SendHeaders (newStream okSession 1 0 true) true).1.Output.nFramesSent
        = (0 + 1) % 2 ^ 32) ∧
    ((StreamWriter.SendHeaders (newStream brokenSession 1 0 true) true).2
        = some (.New "broken pipe") ∧
     (StreamWriter.SendHeaders (newStream brokenSession 1 0 true) true).1.Output.nFramesSent
        = 0) := by
  constructor
  · obtain ⟨frame, _, hok, _⟩ :=
      StreamWriter.SendHeaders_result (newStream okSession 1 0 true) true
    exact hok rfl
  · obtain ⟨frame, _, _, herr⟩ :=
      StreamWriter.SendHeaders_result (newStream brokenSession 1 0 true) true
    have h := herr (.New "broken pipe") rfl
    exact ⟨h.1, h.2.1⟩

/-! ## C5, C6, C10: Send -/

/-- C10: with `nFramesSent > 0`, `Send(payload)` hands exactly one frame to the
session, the data frame with the stream's `Id` and the payload, and no control
frame; it returns what `WriteFrame` returned for that frame, nil or the same
error; nothing else of the stream changes. -/
theorem StreamWriter.Send_opened (stream : Stream) (payload : Bytes)
    (hn : 0 < stream.Output.nFramesSent) :
    StreamWriter.Send stream (some payload) =
      ({ stream with
          session := { stream.session with
                        written := stream.session.written ++ [.DataFrame stream.Id payload] } },
       .ret (stream.session.WriteFrame (.DataFrame stream.Id payload)).2) ∧
    (stream.session.WriteFrame (.DataFrame stream.Id payload)).2 =
      stream.session.reply stream.session.written (.DataFrame stream.Id payload) ∧
    submitted stream (StreamWriter.Send stream (some payload)).1 =
      [.DataFrame stream.Id payload] := by
  have hne : stream.Output.nFramesSent ≠ 0 := Nat.pos_iff_ne_zero.mp hn
  have h1 : StreamWriter.Send stream (some payload) =
      ({ stream with
          session := { stream.session with
                        written := stream.session.written ++ [.DataFrame stream.Id payload] } },
       .ret (stream.session.WriteFrame (.DataFrame stream.Id payload)).2) := by
    unfold StreamWriter.Send Session.WriteFrame
    simp [hne]
  refine ⟨h1, rfl, ?_⟩
  rw [h1]
  simp [submitted]

/-- C10 at an opened stream, once with a session that succeeds and once with
one that fails. -/
theorem StreamWriter.Send_opened_witness :
    0 < (sentStream okSession true 1).Output.nFramesSent ∧
    (StreamWriter.Send (sentStream okSession true 1) (some [120])).2 = .ret none ∧
    submitted (sentStream okSession true 1)
      (StreamWriter.Send (sentStream okSession true 1) (some [120])).1 = [.DataFrame 1 [120]] ∧
    (StreamWriter.Send (sentStream brokenSession true 1) (some [120])).2
      = .ret (some (.New "broken pipe")) :=
  have h := StreamWriter.Send_opened (sentStream okSession true 1) [120] (by decide)
  have k := StreamWriter.Send_opened (sentStream brokenSession true 1) [120] (by decide)
  ⟨by decide, by rw [h.1]; rfl, h.2.2, by rw [k.1]; rfl⟩

/-- A call of `Send` with a payload: at most one control frame, then the data frame; the
value returned is the session's answer for the data frame alone. -/
theorem StreamWriter.Send_shape (stream : Stream) (payload : Bytes) :
    ∃ control : List Frame,
      (StreamWriter.Send stream (some payload)).1.session.written =
        stream.session.written ++ control ++ [.DataFrame stream.Id payload] ∧
      (∀ f ∈ control, f.isControl = true) ∧
      (StreamWriter.Send stream (some payload)).1.session.reply = stream.session.reply ∧
      (StreamWriter.Send stream (some payload)).1.Id = stream.Id ∧
      (StreamWriter.Send stream (some payload)).2 =
        .ret (stream.session.reply (stream.session.written ++ control)
                (.DataFrame stream.Id payload)) := by
  by_cases hn : stream.Output.nFramesSent = 0
  · obtain ⟨frame, heq, _, hc, _⟩ := StreamWriter.SendHeaders_eq stream false
    have hw := StreamWriter.writeFrame_written stream frame
    have hid : (StreamWriter.writeFrame stream frame).1.Id = stream.Id := by
      unfold StreamWriter.writeFrame Session.WriteFrame
      cases h : stream.session.reply stream.session.written frame <;> simp
    refine ⟨[frame], ?_, ?_, ?_, ?_, ?_⟩
    · unfold StreamWriter.Send Session.WriteFrame
      simp [hn, heq, hw.1, hid]
    · intro f hf
      simp only [List.mem_singleton] at hf
      rw [hf]
      exact hc
    · unfold StreamWriter.Send Session.WriteFrame
      simp [hn, heq, hw.2.1]
    · unfold StreamWriter.Send Session.WriteFrame
      simp [hn, heq, hid]
    · unfold StreamWriter.Send Session.WriteFrame
      simp [hn, heq, hw.1, hw.2.1, hid]
  · refine ⟨[], ?_, ?_, ?_, ?_, ?_⟩
    · unfold StreamWriter.Send Session.WriteFrame
      simp [hn]
    · intro f hf
      cases hf
    · unfold StreamWriter.Send Session.WriteFrame
      simp [hn]
    · unfold StreamWriter.Send Session.WriteFrame
      simp [hn]
    · unfold StreamWriter.Send Session.WriteFrame
      simp [hn]

/-- C5 as stated fails: on a fresh writer whose session succeeds, `Send` does
hand two frames to the session and return nil, but `nFramesSent` is then 1, not
2: the data frame is not counted. -/
theorem StreamWriter.Send_fresh_counter_is_one :
    (newStream okSession 1 0 true).Output.nFramesSent = 0 ∧
    (StreamWriter.Send (newStream okSession 1 0 true) (some [120])).2 = .ret none ∧
    (StreamWriter.Send (newStream okSession 1 0 true) (some [120])).1.session.written
      = [.SynStreamFrame 1 0 [], .DataFrame 1 [120]] ∧
    (StreamWriter.Send (newStream okSession 1 0 true) (some [120])).1.Output.nFramesSent = 1 ∧
    (StreamWriter.Send (newStream okSession 1 0 true) (some [120])).1.Output.nFramesSent ≠ 2 := by
  decide

/-- C5, amended: on a fresh writer (`nFramesSent == 0`) whose session's
`WriteFrame` succeeds, `Send(payload)` hands exactly two frames to the session:
first the control frame that `SendHeaders(false)` hands over (SYN_STREAM or
SYN_REPLY by `IsMine`, with zero flags), then one data frame with the stream's
`Id` and the payload; it returns nil, and `nFramesSent` is 1 when it returns. -/
theorem StreamWriter.Send_fresh (stream : Stream) (payload : Bytes)
    (hn : stream.Output.nFramesSent = 0) (hok : stream.session.succeeds) :
    ∃ control : Frame,
      (StreamWriter.SendHeaders stream false).1.session.written =
        stream.session.written ++ [control] ∧
      control = (if stream.IsMine then Frame.SynStreamFrame stream.Id 0 stream.Output.headers
                 else Frame.SynReplyFrame stream.Id 0 stream.Output.headers) ∧
      submitted stream (StreamWriter.Send stream (some payload)).1 =
        [control, .DataFrame stream.Id payload] ∧
      (StreamWriter.Send stream (some payload)).2 = .ret none ∧
      (StreamWriter.Send stream (some payload)).1.Output.nFramesSent = 1 := by
  obtain ⟨frame, heq, _, _, _, h1, h2, _⟩ := StreamWriter.SendHeaders_eq stream false
  have hframe : frame = (if stream.IsMine then Frame.SynStreamFrame stream.Id 0 stream.Output.headers
                 else Frame.SynReplyFrame stream.Id 0 stream.Output.headers) := by
    cases hm : stream.IsMine
    · simpa using h2 hn hm
    · simpa using h1 hn hm
  have hwf := StreamWriter.writeFrame_ok stream frame (hok _ _)
  have hsend : StreamWriter.Send stream (some payload) =
      ({ stream with
          session := { stream.session with
                        written := stream.session.written ++ [frame] ++
                          [.DataFrame stream.Id payload] }
          Output := { stream.Output with nFramesSent := 1 } },
       .ret none) := by
    unfold StreamWriter.Send Session.WriteFrame
    simp [hn, heq, hwf, hok _ _]
  refine ⟨frame, ?_, hframe, ?_, ?_, ?_⟩
  · rw [heq]
    exact (StreamWriter.writeFrame_written stream frame).1
  · rw [hsend]
    simp [submitted]
  · rw [hsend]
  · rw [hsend]

/-- C5, amended, at a fresh remote stream and the payload "x". -/
theorem StreamWriter.Send_fresh_witness :
    (newStream okSession 1 0 false).Output.nFramesSent = 0 ∧
    okSession.succeeds ∧
    submitted (newStream okSession 1 0 false)
      (StreamWriter.Send (newStream okSession 1 0 false) (some [120])).1 =
        [.SynReplyFrame 1 0 [], .DataFrame 1 [120]] ∧
    (StreamWriter.Send (newStream okSession 1 0 false) (some [120])).2 = .ret none ∧
    (StreamWriter.Send (newStream okSession 1 0 false) (some [120])).1.Output.nFramesSent = 1 := by
  have hok : okSession.succeeds := fun _ _ => rfl
  obtain ⟨control, _, hc, hs, hr, hcount⟩ :=
    StreamWriter.Send_fresh (newStream okSession 1 0 false) [120] rfl hok
  refine ⟨rfl, hok, ?_, hr, hcount⟩
  rw [hs, hc]
  rfl

/-- C6 fails on the code: on a fresh writer whose session fails the first
`WriteFrame` (the implicit header frame) and accepts the second (the data
frame), the implicit `SendHeaders(false)` returns the error, yet `Send`
returns nil. -/
theorem StreamWriter.Send_swallows_header_error :
    (newStream flakySession 1 0 true).Output.nFramesSent = 0 ∧
    (StreamWriter.SendHeaders (newStream flakySession 1 0 true) false).2
      = some (.New "broken pipe") ∧
    (StreamWriter.Send (newStream flakySession 1 0 true) (some [120])).1.session.written
      = [.SynStreamFrame 1 0 [], .DataFrame 1 [120]] ∧
    (StreamWriter.Send (newStream flakySession 1 0 true) (some [120])).2 = .ret none := by
  decide

/-! ## C7, C8, C9: SendLines -/

/-- C7 fails on the code: the writer is open, the source yields the lines "x"
and "y", and the session fails every write.  The first `Send` returns the
session's error and no second `Send` is made, yet `SendLines` returns nil: it
returns the nil error of `ReadLine` in place of the error of `Send`. -/
theorem StreamWriter.SendLines_drops_send_error :
    (StreamWriter.Send (sentStream brokenSession true 1) (some [120])).2
      = .ret (some (.New "broken pipe")) ∧
    (StreamWriter.SendLines (sentStream brokenSession true 1)
        [{ line := [120], err := none }, { line := [121], err := none }]).1.session.written
      = [.DataFrame 1 [120]] ∧
    (StreamWriter.SendLines (sentStream brokenSession true 1)
        [{ line := [120], err := none }, { line := [121], err := none }]).2
      = .ret none := by
  decide

theorem StreamWriter.Send_succeeds (stream : Stream) (payload : Bytes)
    (hok : stream.session.succeeds) :
    (StreamWriter.Send stream (some payload)).2 = .ret none ∧
    (StreamWriter.Send stream (some payload)).1.session.succeeds := by
  obtain ⟨control, _, _, hreply, _, hret⟩ := StreamWriter.Send_shape stream payload
  refine ⟨?_, ?_⟩
  · rw [hret, hok _ _]
  · intro before frame
    rw [hreply]
    exact hok before frame

/-- While the session succeeds, `SendLines` makes one `Send` for each line read
and goes on with the rest of the source. -/
theorem StreamWriter.SendLines_lines (ls : List Bytes) :
    ∀ (stream : Stream) (rest : List ReadLineResult), stream.session.succeeds →
      StreamWriter.SendLines stream (ls.map (fun l => { line := l, err := none }) ++ rest) =
        StreamWriter.SendLines (StreamWriter.sendEach stream ls) rest := by
  induction ls with
  | nil =>
    intro stream rest _
    rfl
  | cons l ls ih =>
    intro stream rest hok
    obtain ⟨hret, hok1⟩ := StreamWriter.Send_succeeds stream l hok
    have hstep : StreamWriter.SendLines stream
        ({ line := l, err := none } ::
          (ls.map (fun l => ({ line := l, err := none } : ReadLineResult)) ++ rest)) =
        StreamWriter.SendLines (StreamWriter.Send stream (some l)).1
          (ls.map (fun l => ({ line := l, err := none } : ReadLineResult)) ++ rest) := by
      rw [StreamWriter.SendLines]
      simp only [reduceCtorEq, if_false, ne_eq, not_true_eq_false]
      generalize hs : StreamWriter.Send stream (some l) = p at hret
      rcases p with ⟨stream1, res⟩
      simp only at hret
      subst hret
      rfl
    simp only [List.map_cons, List.cons_append, StreamWriter.sendEach]
    rw [hstep]
    exact ih _ rest hok1

/-- The frames that a run of `Send` calls hands to the session: its data
frames are the payloads, in order, under the stream's `Id`. -/
theorem StreamWriter.sendEach_data (ls : List Bytes) :
    ∀ stream : Stream,
      (StreamWriter.sendEach stream ls).Id = stream.Id ∧
      stream.session.written.length ≤ (StreamWriter.sendEach stream ls).session.written.length ∧
      (StreamWriter.sendEach stream ls).session.written.take stream.session.written.length
        = stream.session.written ∧
      (submitted stream (StreamWriter.sendEach stream ls)).filter (fun f => !f.isControl) =
        ls.map (fun l => Frame.DataFrame stream.Id l) := by
  induction ls with
  | nil =>
    intro stream
    simp [StreamWriter.sendEach, submitted]
  | cons l ls ih =>
    intro stream
    obtain ⟨control, hw, hc, _, hid, _⟩ := StreamWriter.Send_shape stream l
    obtain ⟨ihid, ihlen, ihtake, ihdata⟩ := ih (StreamWriter.Send stream (some l)).1
    simp only [StreamWriter.sendEach]
    generalize hfin : (StreamWriter.sendEach (StreamWriter.Send stream (some l)).1 ls) = fin
      at ihid ihlen ihtake ihdata
    generalize hmid : (StreamWriter.Send stream (some l)).1 = mid at hw hid ihid ihlen ihtake ihdata
    have hsplit : fin.session.written =
        mid.session.written ++ fin.session.written.drop mid.session.written.length := by
      conv_lhs => rw [← List.take_append_drop mid.session.written.length fin.session.written]
      rw [ihtake]
    have hcf : control.filter (fun f => !f.isControl) = [] := by
      rw [List.filter_eq_nil_iff]
      intro f hf
      simp [hc f hf]
    simp only [submitted] at ihdata ⊢
    generalize fin.session.written.drop mid.session.written.length = tail at ihdata hsplit
    refine ⟨by rw [ihid, hid], ?_, ?_, ?_⟩
    · rw [hw] at ihlen
      simp only [List.length_append, List.length_singleton] at ihlen
      omega
    · rw [hsplit, hw]
      simp [List.take_append_eq_append_take]
    · rw [hsplit, hw]
      simp only [List.append_assoc, List.drop_left, List.filter_append, hcf, List.nil_append]
      rw [ihdata, hid]
      simp [Frame.isControl]

/-- C8: when the source yields the lines l1, ..., ln, one for each `ReadLine`,
and then end-of-input, and the session's `WriteFrame` always succeeds,
`SendLines` makes exactly the calls `Send(l1), ..., Send(ln)` in that order and
returns nil, whether end-of-input is the `io.EOF` of the exhausted reader or an
`io.EOF` followed by more; the data frames handed to the session are those of
l1, ..., ln in order. -/
theorem StreamWriter.SendLines_until_EOF (stream : Stream) (ls : List Bytes)
    (junk : Bytes) (more : List ReadLineResult) (hok : stream.session.succeeds) :
    StreamWriter.SendLines stream (ls.map (fun l => { line := l, err := none })) =
      (StreamWriter.sendEach stream ls, .ret none) ∧
    StreamWriter.SendLines stream
        (ls.map (fun l => { line := l, err := none }) ++ { line := junk, err := some .EOF } :: more) =
      (StreamWriter.sendEach stream ls, .ret none) ∧
    (submitted stream (StreamWriter.sendEach stream ls)).filter (fun f => !f.isControl) =
      ls.map (fun l => Frame.DataFrame stream.Id l) := by
  refine ⟨?_, ?_, (StreamWriter.sendEach_data ls stream).2.2.2⟩
  · have h := StreamWriter.SendLines_lines ls stream [] hok
    rw [List.append_nil] at h
    rw [h]
    rfl
  · rw [StreamWriter.SendLines_lines ls stream _ hok]
    simp [StreamWriter.SendLines]

/-- C8 at the lines "x" and "y": two `Send` calls, "x" then "y", and nil. -/
theorem StreamWriter.SendLines_until_EOF_witness :
    okSession.succeeds ∧
    StreamWriter.SendLines (newStream okSession 1 0 true)
        [{ line := [120], err := none }, { line := [121], err := none }] =
      ((StreamWriter.Send (StreamWriter.Send (newStream okSession 1 0 true) (some [120])).1
          (some [121])).1,
        .ret none) ∧
    (submitted (newStream okSession 1 0 true)
        (StreamWriter.sendEach (newStream okSession 1 0 true) [[120], [121]])).filter
          (fun f => !f.isControl) =
      [.DataFrame 1 [120], .DataFrame 1 [121]] :=
  have h := StreamWriter.SendLines_until_EOF (newStream okSession 1 0 true) [[120], [121]] []
    [] (fun _ _ => rfl)
  ⟨fun _ _ => rfl, h.1, h.2.2⟩

/-- C9: when the source yields the lines l1, ..., lk and then a read error `e`
that is not `io.EOF`, and the session's `WriteFrame` always succeeds,
`SendLines` makes exactly the calls `Send(l1), ..., Send(lk)` in that order,
none after the failed read whatever the source would yield next, and returns
exactly `e`; the data frames handed to the session are those of l1, ..., lk. -/
theorem StreamWriter.SendLines_read_error (stream : Stream) (ls : List Bytes)
    (junk : Bytes) (e : Error) (more : List ReadLineResult)
    (he : e ≠ .EOF) (hok : stream.session.succeeds) :
    StreamWriter.SendLines stream
        (ls.map (fun l => { line := l, err := none }) ++ { line := junk, err := some e } :: more) =
      (StreamWriter.sendEach stream ls, .ret (some e)) ∧
    (submitted stream (StreamWriter.sendEach stream ls)).filter (fun f => !f.isControl) =
      ls.map (fun l => Frame.DataFrame stream.Id l) := by
  refine ⟨?_, (StreamWriter.sendEach_data ls stream).2.2.2⟩
  rw [StreamWriter.SendLines_lines ls stream _ hok]
  simp [StreamWriter.SendLines, he]

/-- C9 at the line "x", then a read error, then a line "y" that is never
read. -/
theorem StreamWriter.SendLines_read_error_witness :
    Error.New "unexpected reset" ≠ Error.EOF ∧
    okSession.succeeds ∧
    StreamWriter.SendLines (newStream okSession 1 0 true)
        [{ line := [120], err := none }, { line := [], err := some (.New "unexpected reset") },
         { line := [121], err := none }] =
      ((StreamWriter.Send (newStream okSession 1 0 true) (some [120])).1,
        .ret (some (.New "unexpected reset"))) ∧
    (submitted (newStream okSession 1 0 true)
        (StreamWriter.sendEach (newStream okSession 1 0 true) [[120]])).filter
          (fun f => !f.isControl) =
      [.DataFrame 1 [120]] :=
  have h := StreamWriter.SendLines_read_error (newStream okSession 1 0 true) [[120]] []
    (.New "unexpected reset") [{ line := [121], err := none }] (by decide) (fun _ _ => rfl)
  ⟨by decide, fun _ _ => rfl, h.1, h.2⟩

/-! ## C11, C12, C14: the message queue -/

/-- C11 as stated fails: with a waiter registered on channel 5 and one message
in the buffer, `MQ.Receive` does not fail; it returns the buffered message with
a nil error and leaves the registration as it was. -/
theorem MQ.Receive_buffered_ignores_waiter :
    ({ messages := [some { data := some [1], headers := none }], sync := some 5 } : MQ).sync
      ≠ none ∧
    ({ messages := [some { data := some [1], headers := none }], sync := some 5 } : MQ).Receive 6
      = ({ messages := [], sync := some 5 },
         .ret (some { data := some [1], headers := none }, none)) := by
  decide

/-- C11, amended: in every MQ state in which a waiter is already registered
(`sync` is not nil), `MQ.Receive` on an empty buffer fails, returning a nil
message together with the error "MQ can only be watched by one goroutine at a
time" and leaving the queue as it was; on a buffer that is not empty it does
not look at `sync` and returns the head of the buffer with a nil error. -/
theorem MQ.Receive_with_waiter (mq : MQ) (c : Chan) (hsync : mq.sync ≠ none) :
    (mq.messages = [] →
      mq.Receive c =
        (mq, .ret (none, some (.New "MQ can only be watched by one goroutine at a time")))) ∧
    (∀ (msg : Interface) (rest : List Interface), mq.messages = msg :: rest →
      mq.Receive c = ({ mq with messages := rest }, .ret (msg, none))) := by
  refine ⟨?_, ?_⟩
  · intro hbuf
    unfold MQ.Receive MQ.wait
    rw [hbuf]
    simp [hsync]
  · intro msg rest hbuf
    unfold MQ.Receive
    rw [hbuf]

/-- C11, amended, at a queue with a waiter on channel 5: once empty, once with
a message. -/
theorem MQ.Receive_with_waiter_witness :
    (({ messages := [], sync := some 5 } : MQ).sync ≠ none ∧
     ({ messages := [], sync := some 5 } : MQ).Receive 6 =
       ({ messages := [], sync := some 5 },
        .ret (none, some (.New "MQ can only be watched by one goroutine at a time")))) ∧
    ({ messages := [none], sync := some 5 } : MQ).Receive 6 =
       ({ messages := [], sync := some 5 }, .ret (none, none)) :=
  ⟨⟨by decide,
    (MQ.Receive_with_waiter { messages := [], sync := some 5 } 6 (by decide)).1 rfl⟩,
   (MQ.Receive_with_waiter { messages := [none], sync := some 5 } 6 (by decide)).2 none [] rfl⟩

/-- C12: in every MQ state with an empty buffer and a waiter registered on a
channel `first`, a second `MQ.Receive` returns the concurrent-access error at
once, without suspending, and leaves the queue unchanged: the buffer is still
empty and `sync` is still `first`.  A later `Send(msg)` then appends `msg` and
signals `first`, and the first `Receive`, woken by that signal, returns `msg`
with a nil error. -/
theorem MQ.Receive_second_waiter (mq : MQ) (first c : Chan) (msg : Interface)
    (hbuf : mq.messages = []) (hsync : mq.sync = some first) :
    mq.Receive c =
      (mq, .ret (none, some (.New "MQ can only be watched by one goroutine at a time"))) ∧
    (mq.Receive c).1.messages = [] ∧
    (mq.Receive c).1.sync = some first ∧
    (mq.Receive c).1.Send msg = ({ messages := [msg], sync := some first }, some first) ∧
    (((mq.Receive c).1.Send msg).1.wake).Receive c =
      ({ messages := [], sync := none }, .ret (msg, none)) := by
  have hne : mq.sync ≠ none := by
    rw [hsync]
    simp
  have h1 := (MQ.Receive_with_waiter mq c hne).1 hbuf
  rw [h1]
  cases mq with
  | mk messages sync =>
    simp only at hbuf hsync
    subst hbuf
    subst hsync
    exact ⟨rfl, rfl, rfl, rfl, rfl⟩

/-- C12 at the queue that a first `Receive` on a new queue leaves behind. -/
theorem MQ.Receive_second_waiter_witness :
    (NewMQ.Receive 5).2 = .blocked 5 ∧
    (NewMQ.Receive 5).1.messages = [] ∧
    (NewMQ.Receive 5).1.sync = some 5 ∧
    (NewMQ.Receive 5).1.Receive 6 =
      ((NewMQ.Receive 5).1,
       .ret (none, some (.New "MQ can only be watched by one goroutine at a time"))) ∧
    ((NewMQ.Receive 5).1.Receive 6).1.Send (some { data := some [1], headers := none }) =
      ({ messages := [some { data := some [1], headers := none }], sync := some 5 }, some 5) :=
  have h := MQ.Receive_second_waiter (NewMQ.Receive 5).1 5 6
    (some { data := some [1], headers := none }) rfl rfl
  ⟨rfl, rfl, rfl, h.1, h.2.2.2.1⟩

/-- C14: on every MQ whose buffer is `m0 :: rest` and on which no waiter is
registered, `MQ.Receive` returns `(m0, nil)` at once: it does not suspend, no
waiter is registered afterwards, and the buffer is `rest`. -/
theorem MQ.Receive_head (mq : MQ) (c : Chan) (m0 : Interface) (rest : List Interface)
    (hbuf : mq.messages = m0 :: rest) (hsync : mq.sync = none) :
    mq.Receive c = ({ messages := rest, sync := none }, .ret (m0, none)) ∧
    (mq.Receive c).1.messages = rest ∧
    (mq.Receive c).1.sync = none := by
  have h : mq.Receive c = ({ messages := rest, sync := none }, .ret (m0, none)) := by
    cases mq with
    | mk messages sync =>
      simp only at hbuf hsync
      subst hbuf
      subst hsync
      rfl
  rw [h]
  exact ⟨rfl, rfl, rfl⟩

/-- C14 at a buffer of three messages. -/
theorem MQ.Receive_head_witness :
    ({ messages := [some { data := some [1], headers := none }, none,
                    some { data := none, headers := some [] }],
       sync := none } : MQ).Receive 5 =
      ({ messages := [none, some { data := none, headers := some [] }], sync := none },
       .ret (some { data := some [1], headers := none }, none)) :=
  (MQ.Receive_head _ 5 _ _ rfl rfl).1

/-! ## C13, C15: the reader -/

/-- C13 fails on the code: on a reader whose queue is empty and already has a
waiter, `MQ.Receive` returns the nil message with the concurrent-access error,
and `StreamReader.Receive` then panics in the type assertion on the nil message
in place of returning that error. -/
theorem StreamReader.Receive_panics_on_error :
    (({ headers := [], data := { messages := [], sync := some 5 } } : StreamReader).data.Receive 6).2
      = .ret (none, some (.New "MQ can only be watched by one goroutine at a time")) ∧
    (({ headers := [], data := { messages := [], sync := some 5 } } : StreamReader).Receive 6).2
      = .panic :=
  ⟨rfl, rfl⟩

/-- C15 as stated fails: on the reader of a new stream, after `Push(p, h)` with
the headers `h` = a: b and a `Receive` that delivers `(p, h)`, `Headers()`
returns the empty header set, not `h`. -/
theorem StreamReader.Headers_not_last_delivered :
    ((((newStream okSession 1 0 true).Input.Push (some [120]) (some [("a", ["b"])])).1.Receive 5).2
      = .ret (some [120], some [("a", ["b"])], none)) ∧
    ((((newStream okSession 1 0 true).Input.Push (some [120]) (some [("a", ["b"])])).1.Receive
        5).1.Headers = []) ∧
    ((((newStream okSession 1 0 true).Input.Push (some [120]) (some [("a", ["b"])])).1.Receive
        5).1.Headers ≠ [("a", ["b"])]) :=
  ⟨rfl, rfl, by decide⟩

/-- C15, amended: `StreamReader.Headers()` returns the reader's own `headers`
field, which neither `Push` nor `Receive` writes: for every reader with an
empty buffer, payload `p` and header set `h`, after `Push(p, h)` the next
`Receive` delivers `(p, h)` with a nil error and `Headers()` then returns what
it returned before the two calls, whatever `h` is. -/
theorem StreamReader.Headers_unchanged (reader : StreamReader) (p : Option Bytes)
    (h : Option Header) (c : Chan) (hbuf : reader.data.messages = []) :
    ((reader.Push p h).1.Receive c).2 = .ret (p, h, none) ∧
    ((reader.Push p h).1.Receive c).1.Headers = reader.Headers := by
  cases reader with
  | mk headers data =>
    cases data with
    | mk messages sync =>
      simp only at hbuf
      subst hbuf
      exact ⟨rfl, rfl⟩

/-- C15, amended, at the reader of a new stream: `Headers()` is still the
empty header set of `newStream`. -/
theorem StreamReader.Headers_unchanged_witness :
    (newStream okSession 1 0 true).Input.data.messages = [] ∧
    ((((newStream okSession 1 0 true).Input.Push (some [120]) (some [("a", ["b"])])).1.Receive
        5).2 = .ret (some [120], some [("a", ["b"])], none)) ∧
    ((((newStream okSession 1 0 true).Input.Push (some [120]) (some [("a", ["b"])])).1.Receive
        5).1.Headers = (newStream okSession 1 0 true).Input.Headers) :=
  have h := StreamReader.Headers_unchanged (newStream okSession 1 0 true).Input (some [120])
    (some [("a", ["b"])]) 5 rfl
  ⟨rfl, h.1, h.2⟩

/-! ## C16: newStream -/

/-- C16: for every session, id, handler and flag, `newStream` returns a Stream
with `Id == id` and `IsMine == flag`, whose writer has `nFramesSent == 0` and
an empty header set and whose reader has an empty header set and a new queue
(empty buffer, no waiter).  On the heap, the pointer returned is that of the
`Stream`, its `Input` and `Output` point to the reader and the writer, the
`stream` field of both points back to the `Stream` returned, and the reader's
`data` points to the new queue; following the pointers gives the Stream
above. -/
theorem newStream_fresh (session : Session) (sessionAt : Addr) (id : Nat) (handler : Handler)
    (flag : Bool) (streamAt readerAt writerAt queueAt : Addr) :
    ((newStream session id handler flag).Id = id ∧
     (newStream session id handler flag).IsMine = flag ∧
     (newStream session id handler flag).Output.nFramesSent = 0 ∧
     (newStream session id handler flag).Output.Headers = [] ∧
     (newStream session id handler flag).Input.Headers = [] ∧
     (newStream session id handler flag).Input.data.messages = [] ∧
     (newStream session id handler flag).Input.data.sync = none) ∧
    ((newStreamHeap sessionAt id handler flag streamAt readerAt writerAt queueAt).view session
        = newStream session id handler flag ∧
     (newStreamHeap sessionAt id handler flag streamAt readerAt writerAt queueAt).returned
        = streamAt ∧
     (newStreamHeap sessionAt id handler flag streamAt readerAt writerAt queueAt).streamAt
        = streamAt ∧
     (newStreamHeap sessionAt id handler flag streamAt readerAt writerAt queueAt).stream.session
        = sessionAt ∧
     (newStreamHeap sessionAt id handler flag streamAt readerAt writerAt queueAt).stream.Input
        = some readerAt ∧
     (newStreamHeap sessionAt id handler flag streamAt readerAt writerAt queueAt).stream.Output
        = some writerAt ∧
     (newStreamHeap sessionAt id handler flag streamAt readerAt writerAt queueAt).reader.stream
        = some (newStreamHeap sessionAt id handler flag streamAt readerAt writerAt queueAt).returned ∧
     (newStreamHeap sessionAt id handler flag streamAt readerAt writerAt queueAt).writer.stream
        = some (newStreamHeap sessionAt id handler flag streamAt readerAt writerAt queueAt).returned ∧
     (newStreamHeap sessionAt id handler flag streamAt readerAt writerAt queueAt).reader.data
        = some queueAt ∧
     (newStreamHeap sessionAt id handler flag streamAt readerAt writerAt queueAt).queue
        = NewMQ) :=
  ⟨⟨rfl, rfl, rfl, rfl, rfl, rfl, rfl⟩, ⟨rfl, rfl, rfl, rfl, rfl, rfl, rfl, rfl, rfl, rfl⟩⟩

/-! ## C17: Id and IsMine are fixed -/

theorem StreamWriter.writeFrame_fixed (stream : Stream) (frame : Frame) :
    (StreamWriter.writeFrame stream frame).1.Id = stream.Id ∧
    (StreamWriter.writeFrame stream frame).1.IsMine = stream.IsMine := by
  unfold StreamWriter.writeFrame Session.WriteFrame
  cases h : stream.session.reply stream.session.written frame <;> simp

theorem StreamWriter.SendHeaders_fixed (stream : Stream) (final : Bool) :
    (StreamWriter.SendHeaders stream final).1.Id = stream.Id ∧
    (StreamWriter.SendHeaders stream final).1.IsMine = stream.IsMine := by
  obtain ⟨frame, heq, _⟩ := StreamWriter.SendHeaders_eq stream final
  rw [heq]
  exact StreamWriter.writeFrame_fixed stream frame

theorem StreamWriter.Send_fixed (stream : Stream) (data : Option Bytes) :
    (StreamWriter.Send stream data).1.Id = stream.Id ∧
    (StreamWriter.Send stream data).1.IsMine = stream.IsMine := by
  have h := StreamWriter.SendHeaders_fixed stream false
  unfold StreamWriter.Send Session.WriteFrame
  by_cases hn : stream.Output.nFramesSent = 0 <;> cases data <;> simp [hn, h.1, h.2]

theorem StreamWriter.SendLines_fixed (lines : List ReadLineResult) :
    ∀ stream : Stream,
      (StreamWriter.SendLines stream lines).1.Id = stream.Id ∧
      (StreamWriter.SendLines stream lines).1.IsMine = stream.IsMine := by
  induction lines with
  | nil =>
    intro stream
    exact ⟨rfl, rfl⟩
  | cons r lines ih =>
    intro stream
    have hs := StreamWriter.Send_fixed stream (some r.line)
    rw [StreamWriter.SendLines]
    by_cases h1 : r.err = some .EOF
    · simp [h1]
    · by_cases h2 : r.err = none
      · simp only [h1, h2, if_false, ne_eq, not_true_eq_false]
        generalize StreamWriter.Send stream (some r.line) = p at hs
        rcases p with ⟨stream1, res⟩
        cases res with
        | ret a =>
          cases a with
          | none =>
            have hi := ih stream1
            simp only at hs ⊢
            exact ⟨hi.1.trans hs.1, hi.2.trans hs.2⟩
          | some e => exact hs
        | panic => exact hs
        | blocked c => exact hs
      · simp [h1, h2]

theorem StreamWriter.writer_call_fixed (stream : Stream) (call : WriterCall) :
    (StreamWriter.call stream call).Id = stream.Id ∧
    (StreamWriter.call stream call).IsMine = stream.IsMine := by
  cases call with
  | Send data => exact StreamWriter.Send_fixed stream data
  | SendHeaders final => exact StreamWriter.SendHeaders_fixed stream final
  | SendLines lines => exact StreamWriter.SendLines_fixed lines stream
  | Headers headers => exact ⟨rfl, rfl⟩

theorem Stream.call_fixed (stream : Stream) (call : Call) :
    (stream.call call).Id = stream.Id ∧ (stream.call call).IsMine = stream.IsMine := by
  cases call with
  | Push data headers => exact ⟨rfl, rfl⟩
  | Receive c => exact ⟨rfl, rfl⟩
  | wake => exact ⟨rfl, rfl⟩
  | ReaderHeaders headers => exact ⟨rfl, rfl⟩
  | writer call => exact StreamWriter.writer_call_fixed stream call
  | writeFrame frame => exact StreamWriter.writeFrame_fixed stream frame
  | Run => exact ⟨rfl, rfl⟩

theorem Stream.calls_fixed (calls : List Call) :
    ∀ stream : Stream,
      (stream.calls calls).Id = stream.Id ∧ (stream.calls calls).IsMine = stream.IsMine := by
  induction calls with
  | nil =>
    intro stream
    exact ⟨rfl, rfl⟩
  | cons call rest ih =>
    intro stream
    have h1 := Stream.call_fixed stream call
    have h2 := ih (stream.call call)
    simp only [Stream.calls]
    exact ⟨h2.1.trans h1.1, h2.2.trans h1.2⟩

/-- C17: `Id` and `IsMine` never change after construction.  Each core
operation (the reader's `Push`, `Receive` and `Headers`, the writer's `Send`,
`SendHeaders`, `SendLines`, `Headers` and `writeFrame`, and `Run`), from any
state and whatever the session answers, leaves `Id` and `IsMine` as they were;
so after any sequence of them on the Stream that `newStream` returned, `Id` and
`IsMine` are the values given to `newStream`. -/
theorem Stream.Id_IsMine_fixed (session : Session) (id : Nat) (handler : Handler) (flag : Bool)
    (calls : List Call) :
    (∀ (stream : Stream) (call : Call),
      (stream.call call).Id = stream.Id ∧ (stream.call call).IsMine = stream.IsMine) ∧
    ((newStream session id handler flag).calls calls).Id = id ∧
    ((newStream session id handler flag).calls calls).IsMine = flag :=
  ⟨Stream.call_fixed,
   (Stream.calls_fixed calls (newStream session id handler flag)).1,
   (Stream.calls_fixed calls (newStream session id handler flag)).2⟩

/-! ## C19, C20: the counter and the trace of a writer -/

theorem answers_append (reply : List Frame → Frame → Option Error) (xs : List Frame) :
    ∀ (before : List Frame) (ys : List Frame),
      answers reply before (xs ++ ys) =
        answers reply before xs ++ answers reply (before ++ xs) ys := by
  induction xs with
  | nil =>
    intro before ys
    simp [answers]
  | cons x xs ih =>
    intro before ys
    simp only [List.cons_append, answers, List.append_eq]
    rw [ih (before ++ [x]) ys]
    simp

theorem countControlWritten_append (a b : List (Frame × Option Error)) :
    countControlWritten (a ++ b) = countControlWritten a + countControlWritten b := by
  simp [countControlWritten, List.countP_append]

theorem countControlWritten_cons (entry : Frame × Option Error)
    (a : List (Frame × Option Error)) :
    countControlWritten (entry :: a) =
      countControlWritten a + (if controlWritten entry then 1 else 0) := by
  simp [countControlWritten, List.countP_cons]

theorem opensOnce_append (mine : Bool) (a : List (Frame × Option Error)) :
    ∀ (opened : Bool) (b : List (Frame × Option Error)),
      opensOnce mine opened (a ++ b) =
        (opensOnce mine opened a &&
          opensOnce mine (opened || decide (0 < countControlWritten a)) b) := by
  induction a with
  | nil =>
    intro opened b
    simp [opensOnce, countControlWritten]
  | cons entry a ih =>
    intro opened b
    simp only [List.cons_append, opensOnce, countControlWritten_cons, List.append_eq]
    rw [ih (opened || controlWritten entry) b]
    cases hc : controlWritten entry <;> cases opened <;> simp [Bool.and_assoc]

theorem opensOnce_opened (mine : Bool) (tr : List (Frame × Option Error)) :
    opensOnce mine true tr = true →
      ∀ entry ∈ tr, entry.1.isControl = true → entry.1.isHeaders = true := by
  induction tr with
  | nil =>
    intro _ entry hmem
    cases hmem
  | cons first rest ih =>
    intro h entry hmem hcontrol
    simp only [opensOnce, Bool.true_or, Bool.and_eq_true] at h
    rcases List.mem_cons.mp hmem with heq | hrest
    · subst heq
      have hfit := h.1
      simp only [Frame.fits, hcontrol, Bool.not_true, Bool.false_or, if_true] at hfit
      exact hfit
    · exact ih h.2 entry hrest hcontrol

/-- One more frame handed to the session keeps the invariant, when the
counter moves only for a control frame written successfully and a control
frame is chosen by the counter. -/
theorem Tracked.write (reply : List Frame → Frame → Option Error) (before : List Frame)
    (mine : Bool) (stream stream1 : Stream) (frame : Frame)
    (h : Tracked reply before mine stream)
    (hmine : stream1.IsMine = stream.IsMine)
    (hreply : stream1.session.reply = stream.session.reply)
    (hw : stream1.session.written = stream.session.written ++ [frame])
    (hn : stream1.Output.nFramesSent =
      if controlWritten (frame, stream.session.reply stream.session.written frame) then
        (stream.Output.nFramesSent + 1) % 2 ^ 32
      else stream.Output.nFramesSent)
    (hfit : frame.isControl = true →
      if stream.Output.nFramesSent = 0 then frame.opens mine = true
      else frame.isHeaders = true) :
    Tracked reply before mine stream1 := by
  obtain ⟨hm, hr, frames, hwritten, hcount, hopens⟩ := h
  refine ⟨hmine.trans hm, hreply.trans hr, frames ++ [frame], ?_, ?_, ?_⟩
  · rw [hw, hwritten, List.append_assoc]
  · have hsingle : countControlWritten (answers reply (before ++ frames) [frame]) =
        if controlWritten (frame, reply (before ++ frames) frame) then 1 else 0 := by
      simp [answers, countControlWritten, List.countP_cons]
    rw [hn, hr, hwritten, answers_append, countControlWritten_append, hsingle, hcount]
    cases controlWritten (frame, reply (before ++ frames) frame)
    · simp
    · simp only [if_true]
      omega
  · rw [answers_append, countControlWritten_append, opensOnce_append]
    intro hlt
    have hlt1 : countControlWritten (answers reply before frames) < 2 ^ 32 := by omega
    have hcount1 : stream.Output.nFramesSent = countControlWritten (answers reply before frames) := by
      rw [hcount]
      exact Nat.mod_eq_of_lt hlt1
    rw [hopens hlt1]
    simp only [Bool.true_and, Bool.false_or, answers, opensOnce, Bool.and_true, Frame.fits]
    cases hc : frame.isControl
    · rfl
    · have hf := hfit hc
      rw [hcount1] at hf
      by_cases hz : countControlWritten (answers reply before frames) = 0
      · simp only [hz, if_true] at hf
        simp [hz, hf]
      · simp only [hz, if_false] at hf
        have hpos : 0 < countControlWritten (answers reply before frames) := Nat.pos_of_ne_zero hz
        simp [hpos, hf]

theorem Tracked.SendHeaders (reply : List Frame → Frame → Option Error) (before : List Frame)
    (mine : Bool) (stream : Stream) (final : Bool) (h : Tracked reply before mine stream) :
    Tracked reply before mine (StreamWriter.SendHeaders stream final).1 := by
  obtain ⟨frame, heq, _, hcontrol, _, h1, h2, h3⟩ := StreamWriter.SendHeaders_eq stream final
  have hw := StreamWriter.writeFrame_written stream frame
  have hfixed := StreamWriter.writeFrame_fixed stream frame
  rw [heq]
  refine Tracked.write reply before mine stream _ frame h hfixed.2 hw.2.1 hw.1 ?_ ?_
  · cases hr : stream.session.reply stream.session.written frame with
    | none =>
      rw [StreamWriter.writeFrame_ok stream frame hr]
      simp [controlWritten, hcontrol]
    | some e =>
      rw [StreamWriter.writeFrame_err stream frame e hr]
      simp [controlWritten]
  · intro _
    have hm : stream.IsMine = mine := h.1
    by_cases hz : stream.Output.nFramesSent = 0
    · simp only [hz, if_true]
      cases hmine : stream.IsMine
      · rw [h2 hz hmine, ← hm, hmine]
        rfl
      · rw [h1 hz hmine, ← hm, hmine]
        rfl
    · simp only [hz, if_false]
      rw [h3 (Nat.pos_of_ne_zero hz)]
      rfl

theorem Tracked.data (reply : List Frame → Frame → Option Error) (before : List Frame)
    (mine : Bool) (stream : Stream) (bytes : Bytes) (h : Tracked reply before mine stream) :
    Tracked reply before mine
      { stream with session := (stream.session.WriteFrame (.DataFrame stream.Id bytes)).1 } := by
  refine Tracked.write reply before mine stream _ (.DataFrame stream.Id bytes) h rfl rfl rfl ?_ ?_
  · simp [controlWritten, Frame.isControl]
  · intro hc
    simp [Frame.isControl] at hc

theorem Tracked.Send (reply : List Frame → Frame → Option Error) (before : List Frame)
    (mine : Bool) (stream : Stream) (data : Option Bytes) (h : Tracked reply before mine stream) :
    Tracked reply before mine (StreamWriter.Send stream data).1 := by
  have hfirst : Tracked reply before mine
      (if stream.Output.nFramesSent = 0 then (StreamWriter.SendHeaders stream false).1
       else stream) := by
    by_cases hz : stream.Output.nFramesSent = 0
    · simp only [hz, if_true]
      exact Tracked.SendHeaders reply before mine stream false h
    · simp only [hz, if_false]
      exact h
  unfold StreamWriter.Send
  cases data with
  | none => exact hfirst
  | some bytes => exact Tracked.data reply before mine _ bytes hfirst

theorem Tracked.SendLines (reply : List Frame → Frame → Option Error) (before : List Frame)
    (mine : Bool) (lines : List ReadLineResult) :
    ∀ stream : Stream, Tracked reply before mine stream →
      Tracked reply before mine (StreamWriter.SendLines stream lines).1 := by
  induction lines with
  | nil =>
    intro stream h
    exact h
  | cons r lines ih =>
    intro stream h
    have hs := Tracked.Send reply before mine stream (some r.line) h
    rw [StreamWriter.SendLines]
    by_cases h1 : r.err = some .EOF
    · simpa [h1] using h
    · by_cases h2 : r.err = none
      · simp only [h1, h2, if_false, ne_eq, not_true_eq_false]
        generalize StreamWriter.Send stream (some r.line) = p at hs
        rcases p with ⟨stream1, res⟩
        cases res with
        | ret a =>
          cases a with
          | none => exact ih stream1 hs
          | some e => exact hs
        | panic => exact hs
        | blocked c => exact hs
      · simpa [h1, h2] using h

theorem Tracked.calls (reply : List Frame → Frame → Option Error) (before : List Frame)
    (mine : Bool) (calls : List WriterCall) :
    ∀ stream : Stream, Tracked reply before mine stream →
      Tracked reply before mine (StreamWriter.calls stream calls) := by
  induction calls with
  | nil =>
    intro stream h
    exact h
  | cons call rest ih =>
    intro stream h
    refine ih _ ?_
    cases call with
    | Send data => exact Tracked.Send reply before mine stream data h
    | SendHeaders final => exact Tracked.SendHeaders reply before mine stream final h
    | SendLines lines => exact Tracked.SendLines reply before mine lines stream h
    | Headers headers => exact h

theorem Tracked.init (session : Session) (id : Nat) (handler : Handler) (flag : Bool) :
    Tracked session.reply session.written flag (newStream session id handler flag) :=
  ⟨rfl, rfl, [], by simp [myspdy.newStream], rfl, fun _ => rfl⟩

/-- The trace of a writer since `newStream`, read off the invariant. -/
theorem Tracked.trace_eq (session : Session) (id : Nat) (handler : Handler) (flag : Bool)
    (stream : Stream) (h : Tracked session.reply session.written flag stream) :
    stream.Output.nFramesSent =
      countControlWritten (trace (newStream session id handler flag) stream) % 2 ^ 32 ∧
    (countControlWritten (trace (newStream session id handler flag) stream) < 2 ^ 32 →
      opensOnce flag false (trace (newStream session id handler flag) stream) = true) := by
  obtain ⟨_, hr, frames, hwritten, hcount, hopens⟩ := h
  have htrace : trace (newStream session id handler flag) stream =
      answers session.reply session.written frames := by
    simp [trace, submitted, myspdy.newStream, hr, hwritten]
  rw [htrace]
  exact ⟨hcount, hopens⟩

/-- C19: after any finite sequence of `Send`, `SendHeaders` and `SendLines`
calls (and writes to the header set) on the writer of a Stream made by
`newStream`, whatever the session answers, `nFramesSent` equals, modulo 2^32,
the number of entries of the trace that are a control frame (SYN_STREAM,
SYN_REPLY, HEADERS) for which `WriteFrame` returned nil; a data frame, written
or not, and a control frame whose write failed are not counted. -/
theorem StreamWriter.nFramesSent_counts (session : Session) (id : Nat) (handler : Handler)
    (flag : Bool) (calls : List WriterCall) :
    (StreamWriter.calls (newStream session id handler flag) calls).Output.nFramesSent =
      countControlWritten
        (trace (newStream session id handler flag)
          (StreamWriter.calls (newStream session id handler flag) calls)) % 2 ^ 32 ∧
    (∀ (frame : Frame) (answer : Option Error),
      controlWritten (frame, answer) = true ↔
        (frame.isSyn = true ∨ frame.isHeaders = true) ∧ answer = none) := by
  refine ⟨(Tracked.trace_eq session id handler flag _
    (Tracked.calls _ _ _ calls _ (Tracked.init session id handler flag))).1, ?_⟩
  intro frame answer
  cases frame <;> cases answer <;> simp [controlWritten, Frame.isControl, Frame.isSyn, Frame.isHeaders]

/-- C20: a stream is opened on the wire once.  Take the trace of any finite
sequence of `Send`, `SendHeaders` and `SendLines` calls (and writes to the
header set) on the writer of a Stream made by `newStream`, in which fewer than
2^32 control frames are written successfully, and let `first` be its first
control frame that was written successfully.  Then `first` is a SYN_STREAM
frame when `IsMine` is true and a SYN_REPLY frame when it is false, every
control frame handed over after it is a HEADERS frame, and every SYN_STREAM or
SYN_REPLY frame handed over before it is one whose write failed. -/
theorem StreamWriter.opens_once (session : Session) (id : Nat) (handler : Handler)
    (flag : Bool) (calls : List WriterCall) (pre post : List (Frame × Option Error))
    (first : Frame)
    (hlt : countControlWritten
        (trace (newStream session id handler flag)
          (StreamWriter.calls (newStream session id handler flag) calls)) < 2 ^ 32)
    (hsplit : trace (newStream session id handler flag)
        (StreamWriter.calls (newStream session id handler flag) calls) =
      pre ++ (first, none) :: post)
    (hcontrol : first.isControl = true)
    (hfirst : ∀ entry ∈ pre, entry.1.isControl = true → entry.2 ≠ none) :
    first.opens flag = true ∧
    (∀ entry ∈ post, entry.1.isControl = true → entry.1.isHeaders = true) ∧
    (∀ entry ∈ pre, entry.1.isSyn = true → entry.2 ≠ none) := by
  have hop := (Tracked.trace_eq session id handler flag _
    (Tracked.calls _ _ _ calls _ (Tracked.init session id handler flag))).2 hlt
  have hzero : countControlWritten pre = 0 := by
    rw [countControlWritten, List.countP_eq_zero]
    intro entry hmem hwritten
    simp only [controlWritten, Bool.and_eq_true, Option.isNone_iff_eq_none] at hwritten
    exact hfirst entry hmem hwritten.1 hwritten.2
  rw [hsplit, opensOnce_append, hzero] at hop
  simp only [Nat.lt_irrefl, decide_False, Bool.or_false, opensOnce, Bool.false_or,
    Bool.and_eq_true] at hop
  obtain ⟨_, hfits, hpost⟩ := hop
  have hwritten : controlWritten (first, none) = true := by
    simp [controlWritten, hcontrol]
  rw [hwritten] at hpost
  refine ⟨?_, opensOnce_opened flag post hpost, ?_⟩
  · simpa [Frame.fits, hcontrol] using hfits
  · intro entry hmem hsyn
    refine hfirst entry hmem ?_
    cases hf : entry.1 <;> simp_all [Frame.isSyn, Frame.isControl]

/-- C20 on a session whose first `WriteFrame` fails: `SendHeaders(false)`
twice, `Send("x")` and `SendHeaders(true)` give a SYN_STREAM that fails, the
SYN_STREAM that opens the stream, a data frame and a HEADERS frame. -/
theorem StreamWriter.opens_once_witness :
    trace (newStream flakySession 1 0 true)
        (StreamWriter.calls (newStream flakySession 1 0 true)
          [.SendHeaders false, .SendHeaders false, .Send (some [120]), .SendHeaders true]) =
      [(Frame.SynStreamFrame 1 0 [], some (.New "broken pipe"))] ++
        (Frame.SynStreamFrame 1 0 [], none) ::
          [(Frame.DataFrame 1 [120], none), (Frame.HeadersFrame 1 1 [], none)] ∧
    (Frame.SynStreamFrame 1 0 []).opens true = true ∧
    (∀ entry ∈ [((Frame.DataFrame 1 [120], none) : Frame × Option Error),
                (Frame.HeadersFrame 1 1 [], none)],
      entry.1.isControl = true → entry.1.isHeaders = true) ∧
    (∀ entry ∈ [((Frame.SynStreamFrame 1 0 [], some (.New "broken pipe")) : Frame × Option Error)],
      entry.1.isSyn = true → entry.2 ≠ none) :=
  ⟨rfl,
   StreamWriter.opens_once flakySession 1 0 true
     [.SendHeaders false, .SendHeaders false, .Send (some [120]), .SendHeaders true]
     [(Frame.SynStreamFrame 1 0 [], some (.New "broken pipe"))]
     [(Frame.DataFrame 1 [120], none), (Frame.HeadersFrame 1 1 [], none)]
     (Frame.SynStreamFrame 1 0 []) (by decide) rfl rfl (by decide)⟩

end myspdy
